import Mathlib

/-!
Shallow embedding of the MAX17263 fuel-gauge driver (src/MAX17263.cpp).

The driver talks to the chip through 16-bit registers over a two-wire bus.
We model the bus as a map from register names to the last 16-bit value
written (reads return that value), the driver instance as a record of its
member fields, and every member function as an explicit state-passing
function.  C++ float arithmetic is modelled over the rationals; casts of
floats to unsigned 16-bit integers are modelled as truncation toward zero
followed by reduction mod 2^16 (the cast of a negative float to an unsigned
type is undefined behaviour in C++; the model maps it to 0, and no theorem
below depends on that corner).  Register addresses live in the missing
header MAX17263.h, so registers are identified by name, which is all the
code under verification uses.
-/

namespace MAX17263

/-- Names of the chip registers used by the driver.  The concrete byte
addresses are defined in the (not examined) header; the implementation file
refers to registers only through these names. -/
inductive Reg where
  | status | fStat | designCap | ichgTerm | vEmpty | modelCfg | hibCfg
  | vCell | avgVCell | current | repCap | repSOC | timeToEmpty | temp
  | ledCfg1 | ledCfg2
deriving DecidableEq

/-- Member fields of the MAX17263 driver object.  The multiplier and
profile fields are declared in the header; their values are irrelevant to
the theorems except where stated. -/
structure Driver where
  rSense : ℚ
  designCap_mAh : ℤ
  ichgTerm : ℕ
  vEmpty : ℚ
  r100 : Bool
  vChg : Bool
  modelID : ℕ
  current_multiplier_mV : ℚ
  capacity_multiplier_mAH : ℚ
  voltage_multiplier_V : ℚ
  SOC_multiplier : ℚ
  time_multiplier_Hours : ℚ
  originalHibernateCFG : ℕ

/-- Whole-system state: the driver fields, the bus modelled as the last
16-bit value written to each register (an arbitrary initial content stands
for the state of the chip), and the chronological log of register writes
issued by the driver. -/
structure St where
  drv : Driver
  bus : Reg → ℕ
  log : List (Reg × ℕ)

/-- Truncation of a rational toward zero, the rounding C++ uses when
converting a float to an integer type. -/
def ratTrunc (q : ℚ) : ℤ := if 0 ≤ q then ⌊q⌋ else -⌊-q⌋

/-- Conversion of a (float) value to uint16 as the source performs it:
truncate toward zero, reduce mod 2^16.  For negative inputs the C++ cast is
undefined behaviour; the model returns 0 there. -/
def cUInt16 (q : ℚ) : ℕ := (ratTrunc q).toNat % 65536

/-- Reinterpretation of a 16-bit register value as the signed int16_t the
source casts it to (two-s complement). -/
def toInt16 (n : ℕ) : ℤ :=
  if n % 65536 < 32768 then (n % 65536 : ℤ) else (n % 65536 : ℤ) - 65536

/-- MAX17263::readReg16Bit on the last-written bus model: a read returns
the 16-bit value held by the register (two bytes, so mod 2^16). -/
def readReg16Bit (s : St) (r : Reg) : ℕ := s.bus r % 65536

/-- MAX17263::writeReg16Bit: the two transmitted bytes are value and
value >> 8, each masked to 8 bits, so the register receives the value mod
2^16.  The write is appended to the log. -/
def writeReg16Bit (s : St) (r : Reg) (v : ℕ) : St :=
  { s with
    bus := fun r2 => if r2 = r then v % 65536 else s.bus r2,
    log := s.log ++ [(r, v % 65536)] }

/-- MAX17263::readReg16Bit seen at the byte-transport level: the list holds
the bytes the bus makes available after the read request.  If at least two
bytes are available the low byte and high byte are assembled; otherwise the
initial value 0 is returned unchanged. -/
def readReg16Bit_onBytes : List ℕ → ℕ
  | b0 :: b1 :: _ => b0 ||| (b1 <<< 8)
  | _ => 0

/-- MAX17263::getStatus. -/
def getStatus (s : St) : ℕ := readReg16Bit s Reg.status

/-- MAX17263::batteryPresent: BSt is bit 3 of status, 0 means present. -/
def batteryPresent (s : St) : Bool := getStatus s &&& 0x0008 = 0

/-- MAX17263::powerOnResetEvent: POR is bit 1 of status. -/
def powerOnResetEvent (s : St) : Bool := getStatus s &&& 0x0002 ≠ 0

/-- MAX17263::getCurrent: signed raw times current_multiplier_mV.  Reads
do not modify the state; the unchanged state is returned alongside the
value to make that explicit. -/
def getCurrent (s : St) : ℚ × St :=
  ((toInt16 (readReg16Bit s Reg.current) : ℚ) * s.drv.current_multiplier_mV, s)

/-- MAX17263::getVcell. -/
def getVcell (s : St) : ℚ × St :=
  ((readReg16Bit s Reg.vCell : ℚ) * s.drv.voltage_multiplier_V, s)

/-- MAX17263::getAvgVCell. -/
def getAvgVCell (s : St) : ℚ × St :=
  ((readReg16Bit s Reg.avgVCell : ℚ) * s.drv.voltage_multiplier_V, s)

/-- MAX17263::getCapacity_mAh. -/
def getCapacity_mAh (s : St) : ℚ × St :=
  ((readReg16Bit s Reg.repCap : ℚ) * s.drv.capacity_multiplier_mAH, s)

/-- MAX17263::getSOC. -/
def getSOC (s : St) : ℚ × St :=
  ((readReg16Bit s Reg.repSOC : ℚ) * s.drv.SOC_multiplier, s)

/-- MAX17263::getTimeToEmpty: raw value 0xFFFF is the no-valid-estimate
sentinel and returns -1; otherwise raw times time_multiplier_Hours. -/
def getTimeToEmpty (s : St) : ℚ × St :=
  (if readReg16Bit s Reg.timeToEmpty = 0xFFFF then -1
   else (readReg16Bit s Reg.timeToEmpty : ℚ) * s.drv.time_multiplier_Hours, s)

/-- MAX17263::getTemp: signed raw in 1/256 degree units. -/
def getTemp (s : St) : ℚ × St :=
  ((toInt16 (readReg16Bit s Reg.temp) : ℚ) / 256, s)

/-- Polling loop body shared by the two wait functions: up to n polls of
FStat bit 0 (the source polls every 10 ms for 1000 ms, hence 100 polls).
Under the last-written bus model a read is pure, so the polled value is the
same in every iteration. -/
def pollDNR : ℕ → St → Bool
  | 0, _ => false
  | n + 1, s =>
    if readReg16Bit s Reg.fStat &&& 0x0001 = 0 then true else pollDNR n s

/-- MAX17263::waitForDNRdataNotReady: 1000 ms of 10 ms polls. -/
def waitForDNRdataNotReady (s : St) : Bool := pollDNR 100 s

/-- Polling of ModelCfg bit 15 (refresh) with the same 100-poll budget. -/
def pollModelCfg : ℕ → St → Bool
  | 0, _ => false
  | n + 1, s =>
    if readReg16Bit s Reg.modelCfg &&& 0x8000 = 0 then true
    else pollModelCfg n s

/-- MAX17263::waitforModelCFGrefreshReady. -/
def waitforModelCFGrefreshReady (s : St) : Bool := pollModelCfg 100 s

/-- MAX17263::clearPORpowerOnReset: read status, clear bit 1, write back.
The mask written ~0x0002 is 0xFFFD on the 16-bit value. -/
def clearPORpowerOnReset (s : St) : St :=
  writeReg16Bit s Reg.status (readReg16Bit s Reg.status &&& 0xFFFD)

/-- MAX17263::calcMultipliers: current LSB 1.5625e-6 / rSense volts,
converted to mA, and capacity LSB 5e-6 / rSense, in mAh. -/
def calcMultipliers (s : St) (rSense : ℚ) : St :=
  { s with drv := { s.drv with
      current_multiplier_mV := 15625 / 10000000000 / rSense * 1000,
      capacity_multiplier_mAH := 5 / 1000000 / rSense } }

/-- MAX17263::setDesignCap_mAh: scale by the capacity multiplier, cast to
uint16, write the design-capacity register. -/
def setDesignCap_mAh (s : St) (c : ℤ) : St :=
  writeReg16Bit s Reg.designCap
    (cUInt16 ((c : ℚ) / s.drv.capacity_multiplier_mAH))

/-- MAX17263::setIchgTerm: the argument is already in raw LSB units. -/
def setIchgTerm (s : St) (i : ℕ) : St := writeReg16Bit s Reg.ichgTerm i

/-- MAX17263::setVEmpty: convert to 10 mV units, shift into bits 15-7, OR
in the default recovery value 0x0A in bits 6-0. -/
def setVEmpty (s : St) (vf : ℚ) : St :=
  writeReg16Bit s Reg.vEmpty ((cUInt16 (vf * 100) <<< 7) ||| 0x0A)

/-- MAX17263::refreshModelCFG.  The clearing mask ~0x8F00 equals 0x70FF on
the 16-bit value: it clears bits 15, 11, 10, 9, 8 and leaves every other
bit, including bit 13 and bits 7-4, untouched before the OR steps. -/
def refreshModelCFG (s : St) (r100 vChg : Bool) (modelID : ℕ) : St :=
  let m0 := readReg16Bit s Reg.modelCfg
  let m1 := m0 &&& 0x70FF
  let m2 := m1 ||| ((modelID &&& 0x0F) <<< 4)
  let m3 := if r100 then m2 ||| 0x2000 else m2
  let m4 := if vChg then m3 ||| 0x0400 else m3
  writeReg16Bit s Reg.modelCfg (m4 ||| 0x8000)

/-- MAX17263::setEZconfig: fire-and-forget DNR poll, the three profile
writes, the ModelCfg refresh, then the refresh poll whose result is also
discarded. -/
def setEZconfig (s : St) : St :=
  let _ := waitForDNRdataNotReady s
  let s1 := setDesignCap_mAh s s.drv.designCap_mAh
  let s2 := setIchgTerm s1 s1.drv.ichgTerm
  let s3 := setVEmpty s2 s2.drv.vEmpty
  let s4 := refreshModelCFG s3 s3.drv.r100 s3.drv.vChg s3.drv.modelID
  let _ := waitforModelCFGrefreshReady s4
  s4

/-- MAX17263::exitHibernate: write 0x0000 to HibCfg, then 0x0000 to
status, then a 10 ms delay (no state effect in the model). -/
def exitHibernate (s : St) : St :=
  writeReg16Bit (writeReg16Bit s Reg.hibCfg 0x0000) Reg.status 0x0000

/-- MAX17263::storeHibernateCFG: snapshot the current HibCfg value into
the member field. -/
def storeHibernateCFG (s : St) : St :=
  { s with drv := { s.drv with
      originalHibernateCFG := readReg16Bit s Reg.hibCfg } }

/-- MAX17263::restoreHibernateCFG: write the snapshot back to HibCfg. -/
def restoreHibernateCFG (s : St) : St :=
  writeReg16Bit s Reg.hibCfg s.drv.originalHibernateCFG

/-- MAX17263::setLEDCfg1: fixed example configuration value. -/
def setLEDCfg1 (s : St) : St := writeReg16Bit s Reg.ledCfg1 0x0570

/-- MAX17263::setLEDCfg2: fixed example configuration value. -/
def setLEDCfg2 (s : St) : St := writeReg16Bit s Reg.ledCfg2 0x0000

/-- MAX17263::initialize, in source order: exitHibernate,
storeHibernateCFG, the DNR wait with early return on timeout, then
clearPOR, calcMultipliers, setEZconfig, the two LED writes and
restoreHibernateCFG. -/
def initializeGauge (s : St) : St :=
  let s1 := exitHibernate s
  let s2 := storeHibernateCFG s1
  if waitForDNRdataNotReady s2 then
    let s3 := clearPORpowerOnReset s2
    let s4 := calcMultipliers s3 s3.drv.rSense
    let s5 := setEZconfig s4
    let s6 := setLEDCfg1 s5
    let s7 := setLEDCfg2 s6
    restoreHibernateCFG s7
  else s2

/-- MAX17263::productionTest: reads status, ModelCfg and DesignCap,
returns early when status reads 0xFFFF, otherwise reads the cell voltage
and compares it against [2.5, 4.5].  The function is void, every branch
body is empty, and no member field is written. -/
def productionTest (s : St) : St :=
  let status := getStatus s
  let _mc := readReg16Bit s Reg.modelCfg
  let _dc := readReg16Bit s Reg.designCap
  if status = 0xFFFF then s
  else
    let voltage := (getVcell s).1
    if voltage < (2.5 : ℚ) ∨ (4.5 : ℚ) < voltage then s else s

/-- A concrete driver-field record used by counterexamples and witnesses:
a 10 mOhm sense resistor and a typical EZ profile. -/
def drv0 : Driver :=
  { rSense := 1 / 100
    designCap_mAh := 3000
    ichgTerm := 0x0640
    vEmpty := 33 / 10
    r100 := false
    vChg := false
    modelID := 0
    current_multiplier_mV := 15625 / 100000
    capacity_multiplier_mAH := 1 / 2000
    voltage_multiplier_V := 78125 / 1000000000
    SOC_multiplier := 1 / 256
    time_multiplier_Hours := 5625 / 3600000
    originalHibernateCFG := 0 }

/-- Concrete state whose ModelCfg register holds 0x2000 (bit 13 set) and
whose HibCfg register holds the chip default 0x890B. -/
def st0 : St :=
  { drv := drv0
    bus := fun r =>
      if r = Reg.modelCfg then 0x2000
      else if r = Reg.hibCfg then 0x890B else 0
    log := [] }

/-- Concrete state whose status register reads as the bus error pattern
0xFFFF. -/
def stBad : St :=
  { drv := drv0
    bus := fun r => if r = Reg.status then 0xFFFF else 0
    log := [] }

/-- Concrete state whose FStat register has bit 0 (Data-Not-Ready) set, so
the DNR poll can never succeed. -/
def stStuck : St :=
  { drv := drv0
    bus := fun r => if r = Reg.fStat then 0x0001 else 0
    log := [] }

/-- Packing helper fact shared by the VEmpty theorems: for any 10 mV count
v, the stored 16-bit value (v upshifted by 7, OR 0x0A, mod 2^16) has the
truncated count v mod 512 in bits 15-7 and exactly 0x0A in bits 6-0. -/
theorem vemptyPack (v : ℕ) :
    ((v <<< 7 ||| 10) % 65536) >>> 7 = v % 512 ∧
    ((v <<< 7 ||| 10) % 65536) &&& 127 = 10 := by
  have hor : v <<< 7 ||| 10 = 2 ^ 7 * v + 10 := by
    rw [Nat.shiftLeft_eq, Nat.mul_comm]
    exact (Nat.mul_add_lt_is_or (by norm_num) v).symm
  have h127 : (127 : ℕ) = 2 ^ 7 - 1 := by norm_num
  constructor
  · rw [hor, Nat.shiftRight_eq_div_pow]
    have h7 : (2 : ℕ) ^ 7 = 128 := by norm_num
    rw [h7]
    omega
  · rw [hor, h127, Nat.and_pow_two_sub_one_eq_mod]
    have h7 : (2 : ℕ) ^ 7 = 128 := by norm_num
    rw [h7]
    omega

/-- C7: calcMultipliers sets the current multiplier to
1.5625e-6 / R * 1000 mA per LSB and the capacity multiplier to 5e-6 / R
mAh per LSB, and for 0 < R < R2 both multipliers are strictly smaller at
R2 than at R. -/
theorem calcMultipliers_values_antitone (s t : St) (R R2 : ℚ)
    (hR : 0 < R) (hRR : R < R2) :
    (calcMultipliers s R).drv.current_multiplier_mV
      = 15625 / 10000000000 / R * 1000 ∧
    (calcMultipliers s R).drv.capacity_multiplier_mAH = 5 / 1000000 / R ∧
    (calcMultipliers t R2).drv.current_multiplier_mV
      < (calcMultipliers s R).drv.current_multiplier_mV ∧
    (calcMultipliers t R2).drv.capacity_multiplier_mAH
      < (calcMultipliers s R).drv.capacity_multiplier_mAH := by
  refine ⟨rfl, rfl, ?_, ?_⟩
  · show (15625 / 10000000000 : ℚ) / R2 * 1000
        < 15625 / 10000000000 / R * 1000
    have h1 : (15625 / 10000000000 : ℚ) / R2 < 15625 / 10000000000 / R :=
      div_lt_div_of_pos_left (by norm_num) hR hRR
    linarith
  · show (5 / 1000000 : ℚ) / R2 < 5 / 1000000 / R
    exact div_lt_div_of_pos_left (by norm_num) hR hRR

/-- Witness for C7 at R = 1, R2 = 2. -/
theorem calcMultipliers_values_antitone_witness :
    (0 : ℚ) < 1 ∧ (1 : ℚ) < 2 ∧
    ((calcMultipliers st0 1).drv.current_multiplier_mV
        = 15625 / 10000000000 / 1 * 1000 ∧
      (calcMultipliers st0 1).drv.capacity_multiplier_mAH = 5 / 1000000 / 1 ∧
      (calcMultipliers st0 2).drv.current_multiplier_mV
        < (calcMultipliers st0 1).drv.current_multiplier_mV ∧
      (calcMultipliers st0 2).drv.capacity_multiplier_mAH
        < (calcMultipliers st0 1).drv.capacity_multiplier_mAH) :=
  ⟨by norm_num, by norm_num,
    calcMultipliers_values_antitone st0 st0 1 2 (by norm_num) (by norm_num)⟩

/-- C5: getTimeToEmpty returns the sentinel -1 exactly when the raw
TimeToEmpty register value is 0xFFFF, and raw times time_multiplier_Hours
for every other raw value (the time multiplier is a fixed positive
constant from the header; positivity is what makes the sentinel
distinguishable from every scaled reading). -/
theorem getTimeToEmpty_sentinel (s : St)
    (h : 0 < s.drv.time_multiplier_Hours) :
    ((getTimeToEmpty s).1 = -1 ↔ readReg16Bit s Reg.timeToEmpty = 0xFFFF) ∧
    (readReg16Bit s Reg.timeToEmpty ≠ 0xFFFF →
      (getTimeToEmpty s).1
        = (readReg16Bit s Reg.timeToEmpty : ℚ) * s.drv.time_multiplier_Hours)
    := by
  by_cases hr : readReg16Bit s Reg.timeToEmpty = 0xFFFF
  · constructor
    · simp [getTimeToEmpty, hr]
    · intro hc
      exact absurd hr hc
  · have hnn : (0 : ℚ) ≤ (readReg16Bit s Reg.timeToEmpty : ℚ) :=
      Nat.cast_nonneg _
    have hval : (getTimeToEmpty s).1
        = (readReg16Bit s Reg.timeToEmpty : ℚ) * s.drv.time_multiplier_Hours
        := by
      simp [getTimeToEmpty, hr]
    refine ⟨⟨fun he => ?_, fun hc => absurd hc hr⟩, fun _ => hval⟩
    rw [hval] at he
    have hpos : (0 : ℚ) ≤ (readReg16Bit s Reg.timeToEmpty : ℚ)
        * s.drv.time_multiplier_Hours := mul_nonneg hnn h.le
    linarith

/-- Witness for C5 at the concrete state st0. -/
theorem getTimeToEmpty_sentinel_witness :
    0 < st0.drv.time_multiplier_Hours ∧
    (((getTimeToEmpty st0).1 = -1
        ↔ readReg16Bit st0 Reg.timeToEmpty = 0xFFFF) ∧
      (readReg16Bit st0 Reg.timeToEmpty ≠ 0xFFFF →
        (getTimeToEmpty st0).1 = (readReg16Bit st0 Reg.timeToEmpty : ℚ)
          * st0.drv.time_multiplier_Hours)) :=
  ⟨by norm_num [st0, drv0], getTimeToEmpty_sentinel st0 (by norm_num [st0, drv0])⟩

/-- C8: when the bus makes fewer than two bytes available after a read
request, readReg16Bit returns 0.  The function is total and returns a
plain number: there is no exception channel and no error indication. -/
theorem readReg16Bit_short_read (bytes : List ℕ) (h : bytes.length < 2) :
    readReg16Bit_onBytes bytes = 0 := by
  match bytes with
  | [] => rfl
  | [_] => rfl
  | _ :: _ :: _ => exact absurd h (by simp)

/-- Witness for C8 on the empty byte list. -/
theorem readReg16Bit_short_read_witness :
    ([] : List ℕ).length < 2 ∧ readReg16Bit_onBytes [] = 0 :=
  ⟨by decide, readReg16Bit_short_read [] (by decide)⟩

/-- C9: no telemetry accessor and none of the three setters modifies the
two calibration multipliers computed by calcMultipliers; each pair below
states that the current and capacity multipliers of the post-state equal
those of the pre-state. -/
theorem multipliers_invariant (s : St) (c : ℤ) (i : ℕ) (v : ℚ) :
    ((getCurrent s).2.drv.current_multiplier_mV
        = s.drv.current_multiplier_mV ∧
      (getCurrent s).2.drv.capacity_multiplier_mAH
        = s.drv.capacity_multiplier_mAH) ∧
    ((getVcell s).2.drv.current_multiplier_mV
        = s.drv.current_multiplier_mV ∧
      (getVcell s).2.drv.capacity_multiplier_mAH
        = s.drv.capacity_multiplier_mAH) ∧
    ((getAvgVCell s).2.drv.current_multiplier_mV
        = s.drv.current_multiplier_mV ∧
      (getAvgVCell s).2.drv.capacity_multiplier_mAH
        = s.drv.capacity_multiplier_mAH) ∧
    ((getCapacity_mAh s).2.drv.current_multiplier_mV
        = s.drv.current_multiplier_mV ∧
      (getCapacity_mAh s).2.drv.capacity_multiplier_mAH
        = s.drv.capacity_multiplier_mAH) ∧
    ((getSOC s).2.drv.current_multiplier_mV
        = s.drv.current_multiplier_mV ∧
      (getSOC s).2.drv.capacity_multiplier_mAH
        = s.drv.capacity_multiplier_mAH) ∧
    ((getTimeToEmpty s).2.drv.current_multiplier_mV
        = s.drv.current_multiplier_mV ∧
      (getTimeToEmpty s).2.drv.capacity_multiplier_mAH
        = s.drv.capacity_multiplier_mAH) ∧
    ((getTemp s).2.drv.current_multiplier_mV
        = s.drv.current_multiplier_mV ∧
      (getTemp s).2.drv.capacity_multiplier_mAH
        = s.drv.capacity_multiplier_mAH) ∧
    ((setDesignCap_mAh s c).drv.current_multiplier_mV
        = s.drv.current_multiplier_mV ∧
      (setDesignCap_mAh s c).drv.capacity_multiplier_mAH
        = s.drv.capacity_multiplier_mAH) ∧
    ((setIchgTerm s i).drv.current_multiplier_mV
        = s.drv.current_multiplier_mV ∧
      (setIchgTerm s i).drv.capacity_multiplier_mAH
        = s.drv.capacity_multiplier_mAH) ∧
    ((setVEmpty s v).drv.current_multiplier_mV
        = s.drv.current_multiplier_mV ∧
      (setVEmpty s v).drv.capacity_multiplier_mAH
        = s.drv.capacity_multiplier_mAH) :=
  ⟨⟨rfl, rfl⟩, ⟨rfl, rfl⟩, ⟨rfl, rfl⟩, ⟨rfl, rfl⟩, ⟨rfl, rfl⟩,
    ⟨rfl, rfl⟩, ⟨rfl, rfl⟩, ⟨rfl, rfl⟩, ⟨rfl, rfl⟩, ⟨rfl, rfl⟩⟩

/-- C10: when the 10 mV count (uint16)(vf*100) is at least 512, setVEmpty
still writes ((count << 7) | 0x0A) mod 2^16, so the field stored in bits
15-7 is count mod 512, which is not the requested count. -/
theorem setVEmpty_wraparound (s : St) (vf : ℚ)
    (h : 512 ≤ cUInt16 (vf * 100)) :
    (setVEmpty s vf).bus Reg.vEmpty
      = ((cUInt16 (vf * 100) <<< 7) ||| 0x0A) % 65536 ∧
    (setVEmpty s vf).bus Reg.vEmpty >>> 7 = cUInt16 (vf * 100) % 512 ∧
    cUInt16 (vf * 100) % 512 ≠ cUInt16 (vf * 100) := by
  refine ⟨rfl, (vemptyPack (cUInt16 (vf * 100))).1, ?_⟩
  omega

/-- Witness for C10 at vf = 6 V, whose 10 mV count is 600. -/
theorem setVEmpty_wraparound_witness :
    512 ≤ cUInt16 ((6 : ℚ) * 100) ∧
    ((setVEmpty st0 6).bus Reg.vEmpty
        = ((cUInt16 ((6 : ℚ) * 100) <<< 7) ||| 0x0A) % 65536 ∧
      (setVEmpty st0 6).bus Reg.vEmpty >>> 7 = cUInt16 ((6 : ℚ) * 100) % 512 ∧
      cUInt16 ((6 : ℚ) * 100) % 512 ≠ cUInt16 ((6 : ℚ) * 100)) := by
  have h1 : (512 : ℕ) ≤ cUInt16 ((6 : ℚ) * 100) := by
    norm_num [cUInt16, ratTrunc]
    decide
  exact ⟨h1, setVEmpty_wraparound st0 6 h1⟩

/-- C6 counterexample: at the requested empty voltage 6 V the value packed
by setVEmpty decodes (upper 9 bits, 10 mV units) to 0.88 V, which is not
within one 10 mV step of 6 V, refuting the for-every-voltage round trip. -/
theorem setVEmpty_roundtrip_fails_at_6V :
    (setVEmpty st0 6).bus Reg.vEmpty >>> 7 = 88 ∧
    ¬ ((6 : ℚ) - 1 / 100 < ((88 : ℕ) : ℚ) / 100) := by
  constructor
  · norm_num [setVEmpty, writeReg16Bit, cUInt16, ratTrunc]
    decide
  · norm_num

/-- C6 (amended): for every voltage vf with 0 ≤ vf and vf*100 < 512 (the
range in which the float-to-uint16 cast is defined and the packed field
does not wrap), the register value written by setVEmpty has its lower 7
bits equal to 0x0A, and its upper 9 bits, decoded as 10 mV units, recover
vf to within one 10 mV step. -/
theorem setVEmpty_pack_roundtrip (s : St) (vf : ℚ)
    (h0 : 0 ≤ vf) (h1 : vf * 100 < 512) :
    (setVEmpty s vf).bus Reg.vEmpty &&& 127 = 10 ∧
    vf - 1 / 100 < (((setVEmpty s vf).bus Reg.vEmpty >>> 7 : ℕ) : ℚ) / 100 ∧
    (((setVEmpty s vf).bus Reg.vEmpty >>> 7 : ℕ) : ℚ) / 100 ≤ vf := by
  have hq0 : (0 : ℚ) ≤ vf * 100 := mul_nonneg h0 (by norm_num)
  have htr : ratTrunc (vf * 100) = ⌊vf * 100⌋ := if_pos hq0
  have hf0 : (0 : ℤ) ≤ ⌊vf * 100⌋ := Int.floor_nonneg.mpr hq0
  have hf1 : ⌊vf * 100⌋ < 512 := by
    rw [Int.floor_lt]
    push_cast
    exact h1
  have hmz : ((⌊vf * 100⌋.toNat : ℤ)) = ⌊vf * 100⌋ := Int.toNat_of_nonneg hf0
  have hmlt : ⌊vf * 100⌋.toNat < 512 := by omega
  have hV : cUInt16 (vf * 100) = ⌊vf * 100⌋.toNat := by
    rw [cUInt16, htr]
    exact Nat.mod_eq_of_lt (by omega)
  have hbus : (setVEmpty s vf).bus Reg.vEmpty
      = ((⌊vf * 100⌋.toNat <<< 7) ||| 10) % 65536 := by
    rw [show (setVEmpty s vf).bus Reg.vEmpty
        = ((cUInt16 (vf * 100) <<< 7) ||| 10) % 65536 from rfl, hV]
  have hshift : (setVEmpty s vf).bus Reg.vEmpty >>> 7 = ⌊vf * 100⌋.toNat := by
    rw [hbus, (vemptyPack ⌊vf * 100⌋.toNat).1, Nat.mod_eq_of_lt hmlt]
  have hle : ((⌊vf * 100⌋.toNat : ℚ)) ≤ vf * 100 := by
    have h := Int.floor_le (vf * 100)
    rw [← hmz] at h
    exact_mod_cast h
  have hlt : vf * 100 < ((⌊vf * 100⌋.toNat : ℚ)) + 1 := by
    have h := Int.lt_floor_add_one (vf * 100)
    rw [← hmz] at h
    exact_mod_cast h
  refine ⟨?_, ?_, ?_⟩
  · rw [hbus]
    exact (vemptyPack ⌊vf * 100⌋.toNat).2
  · rw [hshift]
    linarith
  · rw [hshift]
    linarith

/-- Witness for the amended C6 at vf = 3.3 V. -/
theorem setVEmpty_pack_roundtrip_witness :
    (0 : ℚ) ≤ 33 / 10 ∧ (33 / 10 : ℚ) * 100 < 512 ∧
    ((setVEmpty st0 (33 / 10)).bus Reg.vEmpty &&& 127 = 10 ∧
      33 / 10 - 1 / 100
        < (((setVEmpty st0 (33 / 10)).bus Reg.vEmpty >>> 7 : ℕ) : ℚ) / 100 ∧
      (((setVEmpty st0 (33 / 10)).bus Reg.vEmpty >>> 7 : ℕ) : ℚ) / 100
        ≤ 33 / 10) :=
  ⟨by norm_num, by norm_num,
    setVEmpty_pack_roundtrip st0 (33 / 10) (by norm_num) (by norm_num)⟩

/-- C4 counterexample: on a bus whose status register reads 0xFFFF (the
communication-failure pattern) productionTest returns with the state
bit-for-bit unchanged, and likewise on a bus whose cell voltage reading is
implausible (st0 reads 0 V); since the source function is void, there is
no returned or observable diagnostic distinguishing either failure from a
healthy device. -/
theorem productionTest_reports_nothing :
    productionTest stBad = stBad ∧ productionTest st0 = st0 := by
  constructor
  · rfl
  · simp [productionTest]

/-- C4 (amended): productionTest reads the status, ModelCfg and DesignCap
registers and evaluates the communication-failure and voltage-range
checks, but discards the findings: it is void, writes nothing, and leaves
the whole driver state unchanged, in particular it never halts the
driver.  No diagnostic result reaches the caller. -/
theorem productionTest_state_invariant (s : St) : productionTest s = s := by
  simp [productionTest]

/-- Helper: under the last-written bus model the polled FStat value never
changes, so a stuck Data-Not-Ready bit makes every poll iteration fail. -/
theorem pollDNR_stuck (n : ℕ) (s : St)
    (h : readReg16Bit s Reg.fStat &&& 0x0001 ≠ 0) : pollDNR n s = false := by
  have h2 : readReg16Bit s Reg.fStat % 2 = 1 := by
    rw [Nat.and_one_is_mod] at h
    omega
  induction n with
  | zero => rfl
  | succ n ih => simp [pollDNR, h2, ih]

/-- Helper: the DNR wait succeeds exactly when bit 0 of the (stable) FStat
value is clear. -/
theorem waitForDNR_eq (s : St) :
    waitForDNRdataNotReady s
      = decide (readReg16Bit s Reg.fStat &&& 0x0001 = 0) := by
  by_cases h : readReg16Bit s Reg.fStat &&& 0x0001 = 0
  · have h1 : pollDNR (99 + 1) s = true := by simp [pollDNR, h]
    simp [waitForDNRdataNotReady, h]
    exact h1
  · have h2 : readReg16Bit s Reg.fStat % 2 = 1 := by
      rw [Nat.and_one_is_mod] at h
      omega
    rw [waitForDNRdataNotReady, pollDNR_stuck 100 s h]
    simp [h2]

/-- C1: over a bus that returns the last value written, for every starting
state in which the DNR poll succeeds, the hibernate snapshot taken by
initialize is 0 (it is read only after exitHibernate wrote 0x0000 to
HibCfg), the final action of initialize is a write of that zero snapshot
back to HibCfg, and HibCfg ends at 0 regardless of its pre-initialization
content. -/
theorem initialize_restores_zeroed_hibernate (s : St)
    (h : readReg16Bit s Reg.fStat &&& 0x0001 = 0) :
    (initializeGauge s).drv.originalHibernateCFG = 0 ∧
    (initializeGauge s).log.getLast? = some (Reg.hibCfg, 0) ∧
    (initializeGauge s).bus Reg.hibCfg = 0 := by
  have hfs2 : s.bus Reg.fStat % 65536 % 2 = 0 := by
    rw [readReg16Bit, Nat.and_one_is_mod] at h
    omega
  simp [initializeGauge, waitForDNR_eq, readReg16Bit, hfs2, exitHibernate,
    storeHibernateCFG, clearPORpowerOnReset, calcMultipliers, setEZconfig,
    setDesignCap_mAh, setIchgTerm, setVEmpty, refreshModelCFG, setLEDCfg1,
    setLEDCfg2, restoreHibernateCFG, writeReg16Bit, List.getLast?_concat]

/-- Witness for C1 at st0, whose HibCfg register initially holds the
nonzero value 0x890B. -/
theorem initialize_restores_zeroed_hibernate_witness :
    (readReg16Bit st0 Reg.fStat &&& 0x0001 = 0) ∧
    ((initializeGauge st0).drv.originalHibernateCFG = 0 ∧
      (initializeGauge st0).log.getLast? = some (Reg.hibCfg, 0) ∧
      (initializeGauge st0).bus Reg.hibCfg = 0) :=
  ⟨by decide, initialize_restores_zeroed_hibernate st0 (by decide)⟩

/-- C2: if FStat bit 0 (Data-Not-Ready) never clears, initialize returns
after only the two exitHibernate writes (HibCfg then status, both 0): no
error is reported (the return value carries no information) and the
design-capacity, Ichg-term, VEmpty and ModelCfg registers are never
written. -/
theorem initialize_timeout_aborts (s : St)
    (h : readReg16Bit s Reg.fStat &&& 0x0001 ≠ 0) :
    (initializeGauge s).log = s.log ++ [(Reg.hibCfg, 0), (Reg.status, 0)] ∧
    (initializeGauge s).bus Reg.designCap = s.bus Reg.designCap ∧
    (initializeGauge s).bus Reg.ichgTerm = s.bus Reg.ichgTerm ∧
    (initializeGauge s).bus Reg.vEmpty = s.bus Reg.vEmpty ∧
    (initializeGauge s).bus Reg.modelCfg = s.bus Reg.modelCfg := by
  have hfs2 : s.bus Reg.fStat % 65536 % 2 = 1 := by
    rw [readReg16Bit, Nat.and_one_is_mod] at h
    omega
  simp [initializeGauge, waitForDNR_eq, readReg16Bit, hfs2, exitHibernate,
    storeHibernateCFG, writeReg16Bit]

/-- Witness for C2 at stStuck, whose FStat register permanently reads 1. -/
theorem initialize_timeout_aborts_witness :
    (readReg16Bit stStuck Reg.fStat &&& 0x0001 ≠ 0) ∧
    ((initializeGauge stStuck).log
        = stStuck.log ++ [(Reg.hibCfg, 0), (Reg.status, 0)] ∧
      (initializeGauge stStuck).bus Reg.designCap
        = stStuck.bus Reg.designCap ∧
      (initializeGauge stStuck).bus Reg.ichgTerm = stStuck.bus Reg.ichgTerm ∧
      (initializeGauge stStuck).bus Reg.vEmpty = stStuck.bus Reg.vEmpty ∧
      (initializeGauge stStuck).bus Reg.modelCfg
        = stStuck.bus Reg.modelCfg) :=
  ⟨by decide, initialize_timeout_aborts stStuck (by decide)⟩

/-- C3 counterexample: with prior ModelCfg content 0x2000 (bit 13 set) and
r100 = false, the value written by refreshModelCFG still has bit 13 set,
because the clearing mask ~0x8F00 does not cover bit 13; the claim that
bit 13 equals r100 for every prior content is therefore false. -/
theorem refreshModelCFG_bit13_leaks :
    ((refreshModelCFG st0 false false 0).bus Reg.modelCfg).testBit 13
      = true := by decide

/-- C3 (amended): after refreshModelCFG(r100, vChg, modelID) the written
ModelCfg value has bit 15 set, bits 11, 9, 8 cleared and bit 10 equal to
vChg (these five bits are cleared by the ~0x8F00 mask); but bit 13 is the
OR of its prior value with r100, and each of bits 7-4 is the OR of its
prior value with the corresponding low-nibble bit of modelID, because the
mask clears neither bit 13 nor bits 7-4; every other bit (14, 12, 3-0)
keeps its prior value. -/
theorem refreshModelCFG_bits (s : St) (r100 vChg : Bool) (modelID : ℕ) :
    ((refreshModelCFG s r100 vChg modelID).bus Reg.modelCfg).testBit 15
      = true ∧
    ((refreshModelCFG s r100 vChg modelID).bus Reg.modelCfg).testBit 13
      = ((readReg16Bit s Reg.modelCfg).testBit 13 || r100) ∧
    ((refreshModelCFG s r100 vChg modelID).bus Reg.modelCfg).testBit 10
      = vChg ∧
    ((refreshModelCFG s r100 vChg modelID).bus Reg.modelCfg).testBit 11
      = false ∧
    ((refreshModelCFG s r100 vChg modelID).bus Reg.modelCfg).testBit 9
      = false ∧
    ((refreshModelCFG s r100 vChg modelID).bus Reg.modelCfg).testBit 8
      = false ∧
    ((refreshModelCFG s r100 vChg modelID).bus Reg.modelCfg).testBit 4
      = ((readReg16Bit s Reg.modelCfg).testBit 4 || modelID.testBit 0) ∧
    ((refreshModelCFG s r100 vChg modelID).bus Reg.modelCfg).testBit 5
      = ((readReg16Bit s Reg.modelCfg).testBit 5 || modelID.testBit 1) ∧
    ((refreshModelCFG s r100 vChg modelID).bus Reg.modelCfg).testBit 6
      = ((readReg16Bit s Reg.modelCfg).testBit 6 || modelID.testBit 2) ∧
    ((refreshModelCFG s r100 vChg modelID).bus Reg.modelCfg).testBit 7
      = ((readReg16Bit s Reg.modelCfg).testBit 7 || modelID.testBit 3) ∧
    ((refreshModelCFG s r100 vChg modelID).bus Reg.modelCfg).testBit 0
      = (readReg16Bit s Reg.modelCfg).testBit 0 ∧
    ((refreshModelCFG s r100 vChg modelID).bus Reg.modelCfg).testBit 1
      = (readReg16Bit s Reg.modelCfg).testBit 1 ∧
    ((refreshModelCFG s r100 vChg modelID).bus Reg.modelCfg).testBit 2
      = (readReg16Bit s Reg.modelCfg).testBit 2 ∧
    ((refreshModelCFG s r100 vChg modelID).bus Reg.modelCfg).testBit 3
      = (readReg16Bit s Reg.modelCfg).testBit 3 ∧
    ((refreshModelCFG s r100 vChg modelID).bus Reg.modelCfg).testBit 12
      = (readReg16Bit s Reg.modelCfg).testBit 12 ∧
    ((refreshModelCFG s r100 vChg modelID).bus Reg.modelCfg).testBit 14
      = (readReg16Bit s Reg.modelCfg).testBit 14 := by
  cases r100 <;> cases vChg <;>
    · simp only [refreshModelCFG, readReg16Bit, writeReg16Bit,
        Bool.false_eq_true, if_false, if_true]
      simp only [show (65536 : ℕ) = 2 ^ 16 from rfl, Nat.testBit_or,
        Nat.testBit_and, Nat.testBit_shiftLeft, Nat.testBit_mod_two_pow]
      simp [Nat.testBit_to_div_mod]

end MAX17263
